import Mathlib

/-!
Incident dashboard (`frontend/app.js`)

A shallow embedding of the dashboard script: the incident records, the filter
engine, the metrics aggregator, the two chart builders, the table renderer and
the event handlers that mutate the page state.

Conventions of the embedding

* A property of a JavaScript object that holds a string is an `Option String`:
  `none` is the absent property (reading it gives `undefined`), `some s` the
  string `s`.
* Numbers that the script computes with `/` are rationals (`ℚ`); where the
  script can produce `NaN` the number is an `Option ℚ` and `none` is `NaN`.
* The document is the part of `World` the handlers write to.
-/

namespace Dashboard

/-! ## Data model -/

/-- An incident record as the backend or the push channel supplies it. -/
structure Incident where
  id : Option String := none
  type : Option String := none
  severity : Option String := none
  status : Option String := none
  zone : Option String := none
  detectedAt : Option String := none
  detected_at : Option String := none
  drone : Option String := none
  source : Option String := none
  evidenceUrl : Option String := none
  evidence_url : Option String := none
  confidence : Option String := none
  deriving DecidableEq, Repr

/-- Truthiness of a string-or-undefined value: `undefined` and the empty string
are falsy, every other string is truthy. -/
def truthy : Option String → Bool
  | none => false
  | some s => s != ""

/-- The expression `a || b` on string-or-undefined values. -/
def jsOr (a b : Option String) : Option String :=
  if truthy a then a else b

/-- The expression `a || "text"`: the right operand is a string literal. -/
def jsOrLit (a : Option String) (text : String) : String :=
  match a with
  | some s => if s != "" then s else text
  | none => text

/-! ## Filters -/

/-- The criteria object `{ issue, severity, status, zone }`. -/
structure Filters where
  issue : Option String := none
  severity : Option String := none
  status : Option String := none
  zone : Option String := none
  deriving DecidableEq, Repr

/-- The callback of `data.filter` in `applyFilters`: four guarded early
returns, then `true`. -/
def filterCallback (filters : Filters) (item : Incident) : Bool :=
  if truthy filters.issue && item.type != filters.issue then false
  else if truthy filters.severity && item.severity != filters.severity then false
  else if truthy filters.status && item.status != filters.status then false
  else if truthy filters.zone && item.zone != filters.zone then false
  else true

/-- The function `applyFilters(data, filters)`. -/
def applyFilters (data : List Incident) (filters : Filters) : List Incident :=
  data.filter (filterCallback filters)

/-- One criterion as the specification words it: an empty or unset criterion
imposes nothing, a non-empty one must equal the incident field exactly. -/
def CriterionHolds (criterion field : Option String) : Prop :=
  ∀ v, criterion = some v → v ≠ "" → field = some v

/-- An incident passes when every non-empty criterion equals the corresponding
field: issue against type, severity, status and zone against their namesakes. -/
def Passes (c : Filters) (x : Incident) : Prop :=
  CriterionHolds c.issue x.type ∧ CriterionHolds c.severity x.severity ∧
    CriterionHolds c.status x.status ∧ CriterionHolds c.zone x.zone

/-- A criterion that is unset or the empty string. -/
def EmptyCriterion (criterion : Option String) : Prop :=
  criterion = none ∨ criterion = some ""

/-- All four criteria are empty or unset. -/
def AllEmpty (c : Filters) : Prop :=
  EmptyCriterion c.issue ∧ EmptyCriterion c.severity ∧
    EmptyCriterion c.status ∧ EmptyCriterion c.zone

/-! ## Dates and elapsed time -/

/-- The argument handed to `new Date(...)`: `undefined`, `null` or a string. -/
inductive DateArg where
  | undefined
  | null
  | str (s : String)
  deriving DecidableEq, Repr

/-- Reading a string property for use as an argument: an absent property reads
as `undefined`. -/
def propArg : Option String → DateArg
  | none => .undefined
  | some s => .str s

/-- The value of `new Date(x).getTime()`, `none` standing for `NaN`.  The date
parser of the platform is the parameter `parse`; `undefined` gives `NaN` and
`null` converts to the number zero, the epoch. -/
def getTime (parse : String → Option Int) : DateArg → Option Int
  | .undefined => none
  | .null => some 0
  | .str s => parse s

/-- The function `differenceInHours(fromISO, toISO)`. -/
def differenceInHours (parse : String → Option Int) (fromISO toISO : DateArg) : ℚ :=
  match getTime parse fromISO, getTime parse toISO with
  | some a, some b => ((b - a : Int) : ℚ) / (1000 * 60 * 60)
  | _, _ => 0

/-- What `formatDateTime` returns: the dash, or the localized text of the date
with the given millisecond count (`d.toLocaleString` with day, short month, hour
and minute, which is never the dash). -/
inductive TimeCell where
  | placeholder
  | formatted (ms : Int)
  deriving DecidableEq, Repr

/-- The function `formatDateTime(isoString)`. -/
def formatDateTime (parse : String → Option Int) (isoString : DateArg) : TimeCell :=
  match getTime parse isoString with
  | none => .placeholder
  | some t => .formatted t

/-! ## Metrics -/

/-- Text of the element `metric-ttc`: the en dash placeholder, or the average
printed with one decimal and the unit. -/
inductive TtcText where
  | placeholder
  | hours (avg : ℚ)
  deriving DecidableEq, Repr

/-- What `updateMetrics` computes and writes. -/
structure Metrics where
  total : Nat
  criticalOpen : Nat
  avgHours : ℚ
  ttc : TtcText
  deriving DecidableEq, Repr

/-- The function `updateMetrics(data)`; `nowISO` is `new Date().toISOString()`
at the time of the call. -/
def updateMetrics (parse : String → Option Int) (nowISO : String) (data : List Incident) :
    Metrics :=
  let total := data.length
  let criticalOpen :=
    (data.filter fun d => d.severity == some "Critical" && d.status != some "Resolved").length
  let resolved := data.filter fun d => d.status == some "Resolved"
  let avgHours : ℚ :=
    if resolved.length != 0 then
      let totalHours :=
        resolved.foldl (fun sum d => sum + differenceInHours parse (propArg d.detectedAt) (.str nowISO)) 0
      totalHours / resolved.length
    else 0
  { total := total
    criticalOpen := criticalOpen
    avgHours := avgHours
    ttc := if resolved.length != 0 then .hours avgHours else .placeholder }

/-! ## Plain objects used as counters

An object literal inherits from `Object.prototype`.  Its own properties are the
list of key and value in creation order; a read of a key that is not an own
property finds the inherited member of that name, if there is one. -/

/-- Names of the function-valued members of `Object.prototype`. -/
def inheritedFunctions : List String :=
  ["constructor", "__defineGetter__", "__defineSetter__", "hasOwnProperty",
    "__lookupGetter__", "__lookupSetter__", "isPrototypeOf", "propertyIsEnumerable",
    "toString", "valueOf", "toLocaleString"]

/-- Names of all members of `Object.prototype`: the accessor `__proto__` and the
functions. -/
def objectPrototypeMembers : List String :=
  "__proto__" :: inheritedFunctions

/-- A value that `(counts[k] || 0) + 1` produces: a number, or a string, which
arises when the left operand is an inherited member or already a string.  Such a
string holds the text of the member, so it is not empty and not the text of a
number. -/
inductive CountVal where
  | num (n : Nat)
  | text
  deriving DecidableEq, Repr

/-- What the read `counts[k]` finds: the value of an own property, an inherited
member of `Object.prototype`, or `undefined`. -/
inductive Read where
  | value (v : CountVal)
  | member
  | undefined
  deriving DecidableEq, Repr

/-- A JavaScript number that is a quotient of counts: `none` is `NaN`. -/
abbrev JsNumber := Option ℚ

/-- The property key an index expression `counts[v]` uses: `undefined` is
converted to the string `undefined`. -/
def propertyKey : Option String → String
  | none => "undefined"
  | some s => s

/-- The own property of the given key, if any. -/
def getOwn : List (String × CountVal) → String → Option CountVal
  | [], _ => none
  | (k', v) :: rest, k => if k' = k then some v else getOwn rest k

/-- The read `counts[k]`: the key `__proto__` always reaches the accessor of the
prototype; any other key reads the own property, else the inherited function of
that name, else `undefined`. -/
def readCount (counts : List (String × CountVal)) (k : String) : Read :=
  if k = "__proto__" then .member
  else
    match getOwn counts k with
    | some v => .value v
    | none => if k ∈ inheritedFunctions then .member else .undefined

/-- The expression `(x || 0) + 1` on what a read found: a number is incremented
(zero is falsy and gives one), `undefined` gives one, a string or an inherited
member is concatenated with the digit and gives a string. -/
def increment : Read → CountVal
  | .value (.num n) => .num (n + 1)
  | .value .text => .text
  | .member => .text
  | .undefined => .num 1

/-- Writing an own property: an existing one keeps its place, a new one is
created last. -/
def setOwn : List (String × CountVal) → String → CountVal → List (String × CountVal)
  | [], k, v => [(k, v)]
  | (k', u) :: rest, k, v => if k' = k then (k', v) :: rest else (k', u) :: setOwn rest k v

/-- The statement `counts[k] = (counts[k] || 0) + 1`.  For the key `__proto__`
the assignment reaches the setter of the prototype, which ignores a string, so
no property is written. -/
def bump (counts : List (String × CountVal)) (k : String) : List (String × CountVal) :=
  if k = "__proto__" then counts else setOwn counts k (increment (readCount counts k))

/-- Value of a string of decimal digits. -/
def digitsValue (cs : List Char) : Nat :=
  cs.foldl (fun n c => 10 * n + (c.toNat - 48)) 0

/-- Whether a key is an array index: the canonical decimal text of a number
below `2^32 - 1`.  Such keys are enumerated first. -/
def isArrayIndex (k : String) : Bool :=
  let cs := k.data
  !cs.isEmpty && cs.all Char.isDigit && (cs.length == 1 || cs.head? != some '0') &&
    decide (digitsValue cs < 4294967295)

/-- The result of `Object.entries(counts)`: array-index keys in ascending numeric
order, then the other keys in creation order. -/
def objectEntries {β : Type} (o : List (String × β)) : List (String × β) :=
  List.insertionSort (fun a b => digitsValue a.1.data ≤ digitsValue b.1.data)
      (o.filter fun e => isArrayIndex e.1) ++
    o.filter fun e => !isArrayIndex e.1

/-- The result of `Object.values(counts)`. -/
def objectValues {β : Type} (o : List (String × β)) : List β :=
  (objectEntries o).map Prod.snd

/-- The operator `+` on two count values: the sum of two numbers, a string as
soon as one operand is a string. -/
def addVal : CountVal → CountVal → CountVal
  | .num a, .num b => .num (a + b)
  | _, _ => .text

/-- Conversion of a count value to a number: a string of this kind is `NaN`. -/
def CountVal.toNumber : CountVal → JsNumber
  | .num n => some n
  | .text => none

/-- The expression `x / y * 100` on numbers, `NaN` when an operand is `NaN`.
The divisors of the script are at least one. -/
def percent (x y : JsNumber) : JsNumber :=
  match x, y with
  | some a, some b => some (a / b * 100)
  | _, _ => none

/-! ## Charts -/

/-- Text both chart builders show for an empty dataset. -/
def emptyChartText : String := "No incidents loaded for this place."

/-- One row of the by-type chart: label, width of the fill in percent, and the
count shown as the value. -/
structure BarRow where
  label : String
  width : JsNumber
  value : CountVal
  deriving DecidableEq, Repr

/-- Content of the container `chart-by-type` after `buildIncidentsByType`. -/
inductive TypeChart where
  | emptyPlaceholder (text : String)
  | bars (rows : List BarRow)
  deriving DecidableEq, Repr

/-- The object `counts` of `buildIncidentsByType` after the `forEach`. -/
def typeCounts (data : List Incident) : List (String × CountVal) :=
  data.foldl (fun counts d => bump counts (propertyKey d.type)) []

/-- Whether the comparator `(a, b) => b[1] - a[1]` lets `a` stay before `b`:
for two numbers the difference is not positive; with a string operand the
difference is `NaN`, which the sort reads as zero. -/
def staysBefore (a b : String × CountVal) : Bool :=
  match a.2, b.2 with
  | .num x, .num y => decide (y ≤ x)
  | _, _ => true

/-- The array `entries` of `buildIncidentsByType`: the entries of `counts`
sorted by the comparator (the sort is stable).  When a value is a string the
comparator is not consistent and the order is left to the platform; the model
then gives the order of an insertion sort. -/
def typeEntries (data : List Incident) : List (String × CountVal) :=
  List.insertionSort (fun a b => staysBefore a b = true) (objectEntries (typeCounts data))

/-- The expression `Math.max(m, v)` in the reduction to the largest count. -/
def mathMax (m : Option Nat) (v : CountVal) : Option Nat :=
  match m, v with
  | some a, .num b => some (Nat.max a b)
  | _, _ => none

/-- The function `buildIncidentsByType(data)`. -/
def buildIncidentsByType (data : List Incident) : TypeChart :=
  if data.length = 0 then .emptyPlaceholder emptyChartText
  else
    let entries := typeEntries data
    let max := entries.foldl (fun m e => mathMax m e.2) (some 1)
    .bars (entries.map fun e =>
      { label := jsOrLit (some e.1) "Unknown"
        width := percent e.2.toNumber (max.map fun m => (m : ℚ))
        value := e.2 })

/-- The array `levels` of `buildIncidentsBySeverity`. -/
def levels : List String := ["Critical", "High", "Medium", "Low"]

/-- The object `colors` of `buildIncidentsBySeverity`, read at one of the
levels. -/
def colors (level : String) : String :=
  if level = "Critical" then "segment-critical"
  else if level = "High" then "segment-high"
  else if level = "Medium" then "segment-medium"
  else if level = "Low" then "segment-low"
  else "undefined"

/-- One segment of the severity track: its class and its width in percent. -/
structure Segment where
  className : String
  width : JsNumber
  deriving DecidableEq, Repr

/-- Content of the container `chart-by-severity` after
`buildIncidentsBySeverity`. -/
inductive SeverityChart where
  | emptyPlaceholder (text : String)
  | row (label : String) (segments : List Segment) (value : CountVal)
  deriving DecidableEq, Repr

/-- The object `counts` of `buildIncidentsBySeverity`: the four levels set to
zero, then one increment per incident under the key of its severity. -/
def severityCounts (data : List Incident) : List (String × CountVal) :=
  data.foldl (fun counts d => bump counts (propertyKey d.severity))
    (levels.map fun l => (l, CountVal.num 0))

/-- The test `!count` on what the read `counts[level]` found. -/
def Read.falsy : Read → Bool
  | .value (.num n) => n == 0
  | .value .text => false
  | .member => false
  | .undefined => true

/-- The number a read converts to as a dividend. -/
def Read.toNumber : Read → JsNumber
  | .value v => v.toNumber
  | .member => none
  | .undefined => none

/-- The expression `total || 1` as a divisor. -/
def orOne : CountVal → JsNumber
  | .num n => if n = 0 then some 1 else some n
  | .text => none

/-- The segments appended by the second `levels.forEach`: a level whose count is
falsy is skipped. -/
def severitySegments (counts : List (String × CountVal)) (total : CountVal) : List Segment :=
  levels.filterMap fun level =>
    let count := readCount counts level
    if count.falsy then none
    else some
      { className := "severity-segment " ++ colors level
        width := percent count.toNumber (orOne total) }

/-- The function `buildIncidentsBySeverity(data)`. -/
def buildIncidentsBySeverity (data : List Incident) : SeverityChart :=
  if data.length = 0 then .emptyPlaceholder emptyChartText
  else
    let counts := severityCounts data
    let total := (objectValues counts).foldl (fun s v => addVal s v) (.num 0)
    .row "Share of incidents" (severitySegments counts total) total

/-! ## Table -/

/-- What a lookup in an object literal of strings finds: the string of an own
property, the inherited member of `Object.prototype` of that name, or
`undefined`. -/
inductive Looked where
  | own (s : String)
  | member (name : String)
  | undefined
  deriving DecidableEq, Repr

/-- Text a template literal receives: a plain string, or the text the platform
gives for the member of `Object.prototype` of the given name. -/
inductive TemplateText where
  | text (s : String)
  | ofMember (name : String)
  deriving DecidableEq, Repr

/-- The interpolation of `x || ""` for a looked-up value. -/
def classText : Looked → TemplateText
  | .own s => .text s
  | .member name => .ofMember name
  | .undefined => .text ""

/-- The function `severityClass(severity)`. -/
def severityClass (severity : String) : Looked :=
  if severity = "Critical" then .own "tag-severity-critical"
  else if severity = "High" then .own "tag-severity-high"
  else if severity = "Medium" then .own "tag-severity-medium"
  else if severity = "Low" then .own "tag-severity-low"
  else if severity ∈ objectPrototypeMembers then .member severity
  else .undefined

/-- The function `statusClass(status)`. -/
def statusClass (status : String) : Looked :=
  if status = "Open" then .own "tag-status-open"
  else if status = "In Progress" then .own "tag-status-inprogress"
  else if status = "Resolved" then .own "tag-status-resolved"
  else if status ∈ objectPrototypeMembers then .member status
  else .undefined

/-- The cells of one table row, in column order; the two classes are those of
the severity and status tags. -/
structure TableRow where
  id : String
  type : String
  severityTag : TemplateText
  severity : String
  statusTag : TemplateText
  status : String
  zone : String
  detected : TimeCell
  drone : String
  evidenceUrl : String
  deriving DecidableEq, Repr

/-- The local `detectedAt` of the row callback:
`d.detectedAt || d.detected_at || null`. -/
def detectedArg (d : Incident) : DateArg :=
  match jsOr d.detectedAt d.detected_at with
  | some s => if s != "" then .str s else .null
  | none => .null

/-- The body of the `data.forEach` callback in `renderTable`: the row built for
one incident. -/
def renderRow (parse : String → Option Int) (d : Incident) : TableRow :=
  let id := jsOrLit d.id "—"
  let type := jsOrLit d.type "—"
  let severity := jsOrLit d.severity "—"
  let status := jsOrLit d.status "—"
  let zone := jsOrLit d.zone "—"
  let detectedAt := detectedArg d
  let drone := jsOrLit (jsOr d.drone d.source) "—"
  let evidenceUrl := jsOrLit (jsOr d.evidenceUrl d.evidence_url) "#"
  { id := id
    type := type
    severityTag := classText (severityClass severity)
    severity := severity
    statusTag := classText (statusClass status)
    status := status
    zone := zone
    detected := formatDateTime parse detectedAt
    drone := drone
    evidenceUrl := evidenceUrl }

/-- Content of the table after `renderTable`: the rows and the count text. -/
structure Table where
  rows : List TableRow
  countText : String
  deriving DecidableEq, Repr

/-- The function `renderTable(data)`. -/
def renderTable (parse : String → Option Int) (data : List Incident) : Table :=
  { rows := data.map (renderRow parse)
    countText := toString data.length ++ " incident" ++ (if data.length = 1 then "" else "s") }

/-! ## Page state and handlers -/

/-- The values of the four filter controls `filter-issue`, `filter-severity`,
`filter-status` and `filter-zone`. -/
structure Controls where
  issue : String := ""
  severity : String := ""
  status : String := ""
  zone : String := ""
  deriving DecidableEq, Repr

/-- The globals of the script and the parts of the document its handlers write:
`rendered` is the dataset the refresh pipeline last ran on, `requests` the place
identifiers fetched so far, oldest first. -/
structure World where
  INCIDENTS : List Incident := []
  FILTERED_INCIDENTS : List Incident := []
  CURRENT_PLACE_ID : Option String := none
  controls : Controls := {}
  statusText : String := ""
  bannerBorder : String := ""
  indicatorColor : String := ""
  placeLabel : String := ""
  rendered : List Incident := []
  requests : List String := []
  deriving DecidableEq, Repr

/-- The state when the script has been evaluated and no handler has run yet:
both arrays empty, no place, controls at their empty option. -/
def initialWorld : World := {}

/-- The function `updateStatusBanner(text, isError)`. -/
def updateStatusBanner (text : String) (isError : Bool) (w : World) : World :=
  { w with
    statusText := text
    bannerBorder := if isError then "rgba(248, 113, 113, 0.7)" else "rgba(148, 163, 184, 0.6)" }

/-- The function `updateConnectionStatus(text, isError)`, all three elements
being present in the document. -/
def updateConnectionStatus (text : String) (isError : Bool) (w : World) : World :=
  { w with
    statusText := text
    bannerBorder := if isError then "rgba(248, 113, 113, 0.7)" else "rgba(34, 197, 94, 0.7)"
    indicatorColor := if isError then "#f87171" else "#22c55e" }

/-- The function `getFilters()`. -/
def getFilters (w : World) : Filters :=
  { issue := some w.controls.issue
    severity := some w.controls.severity
    status := some w.controls.status
    zone := some w.controls.zone }

/-- The statement that sets the value of each of the four controls to the empty
string. -/
def resetControls (w : World) : World :=
  { w with controls := { issue := "", severity := "", status := "", zone := "" } }

/-- The function `refreshAllViews()`: the four view builders run on
`FILTERED_INCIDENTS`. -/
def refreshAllViews (w : World) : World :=
  { w with rendered := w.FILTERED_INCIDENTS }

/-- What the network answers to one request: `fetch` or `res.json()` throws, the
status is not a success, the body is not an object with an array `incidents`,
or the body carries the array. -/
inductive Response where
  | unreachable
  | notOk (status : Nat)
  | invalidShape
  | incidents (list : List Incident)
  deriving DecidableEq, Repr

/-- The function `fetchIncidentsForPlace(placeId)` against the given answer: the
returned array and the state after the call. -/
def fetchIncidentsForPlace (placeId : String) (answer : Response) (w : World) :
    List Incident × World :=
  let w := { w with requests := w.requests ++ [placeId] }
  match answer with
  | .notOk status =>
    ([], updateStatusBanner
      ("Backend responded with " ++ toString status ++ ". Check your server and place ID.")
      true w)
  | .invalidShape =>
    ([], updateStatusBanner
      "API response format is invalid. Expected \x7b incidents: [...] \x7d." true w)
  | .incidents list => (list, w)
  | .unreachable =>
    ([], updateStatusBanner
      "Unable to reach backend API. Verify API_BASE_URL and that the server is running."
      true w)

/-- The function `loadPlace(placeId)`, the answer to its request being given. -/
def loadPlace (placeId : String) (answer : Response) (w : World) : World :=
  if placeId = "" then
    updateStatusBanner "Enter a valid place ID or name to load scan data." true w
  else
    let w := updateStatusBanner ("Loading incidents for \"" ++ placeId ++ "\"...") false w
    let w := { w with placeLabel := placeId }
    let (incidents, w) := fetchIncidentsForPlace placeId answer w
    let w := { w with INCIDENTS := incidents, CURRENT_PLACE_ID := some placeId }
    let w := resetControls w
    let w := { w with FILTERED_INCIDENTS := w.INCIDENTS }
    let w :=
      if w.INCIDENTS.length = 0 then
        updateStatusBanner
          ("No incidents found for \"" ++ placeId ++
            "\". Ensure YOLO pipeline has written data for this area.")
          false w
      else
        updateStatusBanner
          ("Loaded " ++ toString w.INCIDENTS.length ++ " incidents for \"" ++ placeId ++
            "\" from proprietary database.")
          false w
    refreshAllViews w

/-- The click handler of `apply-filters`. -/
def onApplyFilters (w : World) : World :=
  let filters := getFilters w
  let w := { w with FILTERED_INCIDENTS := applyFilters w.INCIDENTS filters }
  refreshAllViews w

/-- The click handler of `clear-filters`. -/
def onClearFilters (w : World) : World :=
  let w := resetControls w
  let w := { w with FILTERED_INCIDENTS := w.INCIDENTS }
  refreshAllViews w

/-- Interpolation of a string-or-undefined value into a template literal. -/
def interpolate : Option String → String
  | none => "undefined"
  | some s => s

/-- The handler of the inbound event `new_detection`; the field `confidence` of
the detection holds the text its number prints as. -/
def onNewDetection (detection : Incident) (w : World) : World :=
  let w := { w with INCIDENTS := detection :: w.INCIDENTS }
  let filters := getFilters w
  let w := { w with FILTERED_INCIDENTS := applyFilters w.INCIDENTS filters }
  let w := refreshAllViews w
  updateConnectionStatus
    ("New " ++ interpolate detection.severity ++ " detection: " ++ interpolate detection.type ++
      " (conf: " ++ interpolate detection.confidence ++ ")")
    false w

/-- The handler of the inbound event `detection_history`, `incidents` being
`data.incidents`. -/
def onDetectionHistory (incidents : List Incident) (w : World) : World :=
  let w := { w with INCIDENTS := incidents }
  let w := { w with FILTERED_INCIDENTS := w.INCIDENTS }
  refreshAllViews w

/-- The operator choosing values in the four filter controls. -/
def setControls (c : Controls) (w : World) : World :=
  { w with controls := c }

/-- The steps that change the dataset or the filtered view. -/
inductive Event where
  | placeLoad (placeId : String) (answer : Response)
  | applyFilters (c : Controls)
  | clearFilters
  | newDetection (detection : Incident)
  | detectionHistory (incidents : List Incident)
  deriving DecidableEq, Repr

/-- One step: the handler of the event runs to completion. -/
def step (w : World) : Event → World
  | .placeLoad placeId answer => loadPlace placeId answer w
  | .applyFilters c => onApplyFilters (setControls c w)
  | .clearFilters => onClearFilters w
  | .newDetection detection => onNewDetection detection w
  | .detectionHistory incidents => onDetectionHistory incidents w

/-- The state after a sequence of events, from the initial state. -/
def run (events : List Event) : World :=
  events.foldl step initialWorld

/-- The filtered view agrees with the criteria the controls hold. -/
def ViewConsistent (w : World) : Prop :=
  w.FILTERED_INCIDENTS = applyFilters w.INCIDENTS (getFilters w)

/-- The array the data access client hands back for an answer: the incidents
of a well-formed answer, the empty array on every handled failure. -/
def fetched : Response → List Incident
  | .incidents list => list
  | _ => []

/-- The five incidents of the metrics example: severities Critical, Critical,
High, Low, Critical with statuses Open, Resolved, Open, Resolved, In Progress. -/
def metricsExample : List Incident :=
  [ { severity := some "Critical", status := some "Open" },
    { severity := some "Critical", status := some "Resolved" },
    { severity := some "High", status := some "Open" },
    { severity := some "Low", status := some "Resolved" },
    { severity := some "Critical", status := some "In Progress" } ]

/-- The operator `+` on two numbers, `NaN` when an operand is `NaN`. -/
def addNumbers : JsNumber → JsNumber → JsNumber
  | some a, some b => some (a + b)
  | _, _ => none

/-- Sum of numbers, `NaN` as soon as one of them is `NaN`. -/
def sumNumbers (l : List JsNumber) : JsNumber :=
  l.foldr addNumbers (some 0)

/-- Sum of the widths of the segments a severity chart shows. -/
def SeverityChart.widthSum : SeverityChart → JsNumber
  | .emptyPlaceholder _ => some 0
  | .row _ segments _ => sumNumbers (segments.map Segment.width)

/-- Number of incidents of a dataset whose severity is exactly the given
level. -/
def severityCount (data : List Incident) (level : String) : Nat :=
  data.countP fun d => decide (d.severity = some level)

/-- Number of incidents of a dataset whose severity is one of the four
levels. -/
def levelled (data : List Incident) : Nat :=
  data.countP fun d => decide (∃ l ∈ levels, d.severity = some l)

/-- The dataset of the severity example: four Critical and six High. -/
def severityExample : List Incident :=
  List.replicate 4 { severity := some "Critical" } ++ List.replicate 6 { severity := some "High" }

/-- A dataset with a severity outside the four levels: two Critical, one High
and one incident of severity Extreme. -/
def mixedExample : List Incident :=
  [{ severity := some "Critical" }, { severity := some "Critical" },
    { severity := some "High" }, { severity := some "Extreme" }]

/-- Number of incidents of a dataset filed under the given key of the object
`counts` of the by-type chart. -/
def typeCount (data : List Incident) (key : String) : Nat :=
  data.countP fun d => decide (propertyKey d.type = key)

/-- A counter that holds numbers only, as a list of key and count. -/
def tallyAt : List (String × Nat) → String → Option Nat
  | [], _ => none
  | (k', v) :: rest, k => if k' = k then some v else tallyAt rest k

/-- Counting one more under a key in a counter of numbers: what `bump` does for
a key that names no member of `Object.prototype`. -/
def tally : List (String × Nat) → String → List (String × Nat)
  | [], k => [(k, 1)]
  | (k', v) :: rest, k => if k' = k then (k', v + 1) :: rest else (k', v) :: tally rest k

/-- A counter of numbers as an object whose values are all numbers. -/
def plain (c : List (String × Nat)) : List (String × CountVal) :=
  c.map fun e => (e.1, CountVal.num e.2)

/-! ## Lemmas on the filter engine -/

theorem guard_false_iff (criterion field : Option String) :
    (truthy criterion && field != criterion) = false ↔ CriterionHolds criterion field := by
  unfold CriterionHolds
  cases criterion with
  | none => simp [truthy]
  | some v =>
    by_cases hv : v = ""
    · simp [truthy, hv]
    · simp [truthy, hv]

theorem filterCallback_iff (c : Filters) (x : Incident) :
    filterCallback c x = true ↔ Passes c x := by
  unfold filterCallback Passes
  rw [← guard_false_iff, ← guard_false_iff, ← guard_false_iff, ← guard_false_iff]
  cases h1 : (truthy c.issue && x.type != c.issue) <;>
  cases h2 : (truthy c.severity && x.severity != c.severity) <;>
  cases h3 : (truthy c.status && x.status != c.status) <;>
  cases h4 : (truthy c.zone && x.zone != c.zone) <;> simp

theorem passes_of_allEmpty (c : Filters) (x : Incident) (h : AllEmpty c) : Passes c x := by
  obtain ⟨h1, h2, h3, h4⟩ := h
  refine ⟨?_, ?_, ?_, ?_⟩ <;> intro v hv hne
  · rcases h1 with h | h <;> rw [h] at hv <;> simp_all
  · rcases h2 with h | h <;> rw [h] at hv <;> simp_all
  · rcases h3 with h | h <;> rw [h] at hv <;> simp_all
  · rcases h4 with h | h <;> rw [h] at hv <;> simp_all

theorem applyFilters_of_allEmpty (d : List Incident) (c : Filters) (h : AllEmpty c) :
    applyFilters d c = d := by
  unfold applyFilters
  rw [List.filter_eq_self]
  intro x _
  exact (filterCallback_iff c x).2 (passes_of_allEmpty c x h)

theorem applyFilters_sublist (d : List Incident) (c : Filters) :
    List.Sublist (applyFilters d c) d :=
  List.filter_sublist d

theorem mem_applyFilters (d : List Incident) (c : Filters) (x : Incident) :
    x ∈ applyFilters d c ↔ x ∈ d ∧ Passes c x := by
  simp [applyFilters, List.mem_filter, filterCallback_iff]

/-! ## Claims on the filter engine -/

/-- C1: `applyFilters(D, C)` is a sublist of `D` (order kept), an incident is in
it exactly when it is in `D` and passes every non-empty criterion, every passing
incident occurs as often as in `D` and no other occurs at all, and with all four
criteria empty or unset the result is `D`. -/
theorem applyFilters_exact (d : List Incident) (c : Filters) :
    List.Sublist (applyFilters d c) d ∧
    (∀ x, x ∈ applyFilters d c ↔ x ∈ d ∧ Passes c x) ∧
    (∀ x, Passes c x → (applyFilters d c).count x = d.count x) ∧
    (∀ x, ¬ Passes c x → (applyFilters d c).count x = 0) ∧
    (AllEmpty c → applyFilters d c = d) := by
  refine ⟨applyFilters_sublist d c, ?_, ?_, ?_, applyFilters_of_allEmpty d c⟩
  · exact mem_applyFilters d c
  · intro x hx
    unfold applyFilters
    rw [List.count_filter ((filterCallback_iff c x).2 hx)]
  · intro x hx
    rw [List.count_eq_zero]
    intro hmem
    simp only [applyFilters, List.mem_filter, filterCallback_iff] at hmem
    exact hx hmem.2


/-- C1, at an input: with the severity criterion set to Critical and the other
three empty, a Critical incident is kept and a Low one dropped, and with every
criterion empty both are kept. -/
theorem applyFilters_exact_witness :
    List.Sublist
        (applyFilters [{ severity := some "Critical" }, { severity := some "Low" }]
          { severity := some "Critical", zone := some "" })
        [{ severity := some "Critical" }, { severity := some "Low" }] ∧
      applyFilters [{ severity := some "Critical" }, { severity := some "Low" }]
          { severity := some "Critical", zone := some "" } = [{ severity := some "Critical" }] ∧
      applyFilters [{ severity := some "Critical" }, { severity := some "Low" }]
          { issue := some "", zone := some "" } =
        [{ severity := some "Critical" }, { severity := some "Low" }] :=
  ⟨(applyFilters_exact _ _).1, by decide,
    (applyFilters_exact _ _).2.2.2.2
      ⟨Or.inr rfl, Or.inl rfl, Or.inl rfl, Or.inr rfl⟩⟩

/-! ## Lemmas on the handlers -/

theorem fetch_returns (p : String) (a : Response) (w : World) :
    (fetchIncidentsForPlace p a w).1 = fetched a := by
  cases a <;> rfl

theorem fetch_keeps_data (p : String) (a : Response) (w : World) :
    (fetchIncidentsForPlace p a w).2.requests = w.requests ++ [p] := by
  cases a <;> rfl

theorem getFilters_reset (w : World) : AllEmpty (getFilters (resetControls w)) :=
  ⟨Or.inr rfl, Or.inr rfl, Or.inr rfl, Or.inr rfl⟩

theorem loadPlace_fields (p : String) (a : Response) (w : World) (hp : p ≠ "") :
    (loadPlace p a w).INCIDENTS = fetched a ∧
    (loadPlace p a w).FILTERED_INCIDENTS = fetched a ∧
    (loadPlace p a w).CURRENT_PLACE_ID = some p ∧
    (loadPlace p a w).controls = {} ∧
    (loadPlace p a w).rendered = fetched a ∧
    (loadPlace p a w).requests = w.requests ++ [p] := by
  unfold loadPlace
  rw [if_neg hp]
  cases a <;>
    simp only [fetchIncidentsForPlace, fetched, updateStatusBanner, resetControls,
      refreshAllViews] <;>
    split <;> simp

theorem consistent_of_reset (w : World) (h : w.controls = {})
    (hf : w.FILTERED_INCIDENTS = w.INCIDENTS) : ViewConsistent w := by
  unfold ViewConsistent
  rw [hf]
  symm
  apply applyFilters_of_allEmpty
  unfold getFilters
  rw [h]
  exact ⟨Or.inr rfl, Or.inr rfl, Or.inr rfl, Or.inr rfl⟩

theorem loadPlace_consistent (p : String) (a : Response) (w : World)
    (h : ViewConsistent w) : ViewConsistent (loadPlace p a w) := by
  by_cases hp : p = ""
  · subst hp
    exact h
  · obtain ⟨h1, h2, _, h4, _, _⟩ := loadPlace_fields p a w hp
    exact consistent_of_reset _ h4 (h2.trans h1.symm)

theorem onApplyFilters_consistent (w : World) : ViewConsistent (onApplyFilters w) := rfl

theorem onClearFilters_consistent (w : World) : ViewConsistent (onClearFilters w) :=
  consistent_of_reset _ rfl rfl

theorem onNewDetection_consistent (d : Incident) (w : World) :
    ViewConsistent (onNewDetection d w) := rfl

/-- Every step other than an inbound `detection_history` leaves the filtered
view equal to `applyFilters` of the dataset under the controls. -/
theorem step_consistent (w : World) (e : Event) (h : ViewConsistent w)
    (he : ∀ l, e ≠ .detectionHistory l) : ViewConsistent (step w e) := by
  cases e with
  | placeLoad p a => exact loadPlace_consistent p a w h
  | applyFilters c => exact onApplyFilters_consistent _
  | clearFilters => exact onClearFilters_consistent w
  | newDetection d => exact onNewDetection_consistent d w
  | detectionHistory l => exact absurd rfl (he l)

theorem step_sublist (w : World) (e : Event)
    (h : List.Sublist w.FILTERED_INCIDENTS w.INCIDENTS) :
    List.Sublist (step w e).FILTERED_INCIDENTS (step w e).INCIDENTS := by
  cases e with
  | placeLoad p a =>
    by_cases hp : p = ""
    · subst hp
      exact h
    · obtain ⟨h1, h2, _⟩ := loadPlace_fields p a w hp
      show List.Sublist (loadPlace p a w).FILTERED_INCIDENTS (loadPlace p a w).INCIDENTS
      rw [h1, h2]
  | applyFilters c => exact applyFilters_sublist _ _
  | clearFilters => exact List.Sublist.refl _
  | newDetection d => exact applyFilters_sublist _ _
  | detectionHistory l => exact List.Sublist.refl _

theorem foldl_step_sublist (es : List Event) (w : World)
    (h : List.Sublist w.FILTERED_INCIDENTS w.INCIDENTS) :
    List.Sublist (es.foldl step w).FILTERED_INCIDENTS (es.foldl step w).INCIDENTS := by
  induction es generalizing w with
  | nil => exact h
  | cons e es ih => exact ih (step w e) (step_sublist w e h)

/-- In every reachable state the filtered view is a sublist of the dataset. -/
theorem run_sublist (es : List Event) :
    List.Sublist (run es).FILTERED_INCIDENTS (run es).INCIDENTS :=
  foldl_step_sublist es initialWorld (List.Sublist.refl _)

/-! ## Claims on the handlers -/

/-- C2, at a trace: after applying the severity criterion Critical and then
receiving a `detection_history` with one Low incident, the controls still hold
Critical, the filtered view holds the Low incident, and `applyFilters` of the
dataset under the controls is empty: the view does not agree with the controls. -/
theorem history_leaves_view_stale :
    (run [.applyFilters { severity := "Critical" },
        .detectionHistory [{ severity := some "Low" }]]).controls.severity = "Critical" ∧
    (run [.applyFilters { severity := "Critical" },
        .detectionHistory [{ severity := some "Low" }]]).INCIDENTS =
      [{ severity := some "Low" }] ∧
    (run [.applyFilters { severity := "Critical" },
        .detectionHistory [{ severity := some "Low" }]]).FILTERED_INCIDENTS =
      [{ severity := some "Low" }] ∧
    applyFilters
        (run [.applyFilters { severity := "Critical" },
          .detectionHistory [{ severity := some "Low" }]]).INCIDENTS
        (getFilters (run [.applyFilters { severity := "Critical" },
          .detectionHistory [{ severity := some "Low" }]])) = [] ∧
    ¬ ViewConsistent (run [.applyFilters { severity := "Critical" },
        .detectionHistory [{ severity := some "Low" }]]) := by
  refine ⟨rfl, rfl, rfl, by decide, ?_⟩
  unfold ViewConsistent
  decide

/-- C3: handling `new_detection` with detection `d` leaves the dataset equal to
`d` followed by the old dataset (one element longer) and the four controls as
they were, sets the filtered view to `applyFilters` of the new dataset under the
criteria read from those controls (issue, severity, status and zone each being
the value of its control) and renders it; `d` is in the filtered view exactly
when every control that is not empty equals the corresponding field of `d`. -/
theorem newDetection_prepends (d : Incident) (w : World) :
    (onNewDetection d w).INCIDENTS = d :: w.INCIDENTS ∧
    (onNewDetection d w).INCIDENTS.length = w.INCIDENTS.length + 1 ∧
    (onNewDetection d w).controls = w.controls ∧
    (onNewDetection d w).FILTERED_INCIDENTS =
      applyFilters (d :: w.INCIDENTS)
        { issue := some w.controls.issue
          severity := some w.controls.severity
          status := some w.controls.status
          zone := some w.controls.zone } ∧
    (onNewDetection d w).rendered = (onNewDetection d w).FILTERED_INCIDENTS ∧
    (d ∈ (onNewDetection d w).FILTERED_INCIDENTS ↔
      (w.controls.issue ≠ "" → d.type = some w.controls.issue) ∧
      (w.controls.severity ≠ "" → d.severity = some w.controls.severity) ∧
      (w.controls.status ≠ "" → d.status = some w.controls.status) ∧
      (w.controls.zone ≠ "" → d.zone = some w.controls.zone)) ∧
    (∀ x, x ∈ (onNewDetection d w).FILTERED_INCIDENTS ↔
      (x = d ∨ x ∈ w.INCIDENTS) ∧
        Passes
          { issue := some w.controls.issue
            severity := some w.controls.severity
            status := some w.controls.status
            zone := some w.controls.zone } x) := by
  refine ⟨rfl, rfl, rfl, rfl, rfl, ?_, ?_⟩
  · show d ∈ applyFilters (d :: w.INCIDENTS) (getFilters w) ↔ _
    rw [mem_applyFilters]
    simp [Passes, CriterionHolds, getFilters]
  · intro x
    show x ∈ applyFilters (d :: w.INCIDENTS) (getFilters w) ↔ _
    rw [mem_applyFilters]
    simp [getFilters]

/-- C3, at an input: with the severity control at Critical and a dataset of one
Critical incident, a Low detection is prepended to the dataset and stays out of
the filtered view, and a Critical detection enters it first. -/
theorem newDetection_prepends_witness :
    (onNewDetection { id := some "n", severity := some "Low" }
        { INCIDENTS := [{ id := some "a", severity := some "Critical" }]
          FILTERED_INCIDENTS := [{ id := some "a", severity := some "Critical" }]
          controls := { severity := "Critical" } }).INCIDENTS =
      [{ id := some "n", severity := some "Low" }, { id := some "a", severity := some "Critical" }] ∧
    (onNewDetection { id := some "n", severity := some "Low" }
        { INCIDENTS := [{ id := some "a", severity := some "Critical" }]
          FILTERED_INCIDENTS := [{ id := some "a", severity := some "Critical" }]
          controls := { severity := "Critical" } }).FILTERED_INCIDENTS =
      [{ id := some "a", severity := some "Critical" }] ∧
    (onNewDetection { id := some "n", severity := some "Critical" }
        { INCIDENTS := [{ id := some "a", severity := some "Critical" }]
          FILTERED_INCIDENTS := [{ id := some "a", severity := some "Critical" }]
          controls := { severity := "Critical" } }).FILTERED_INCIDENTS =
      [{ id := some "n", severity := some "Critical" },
        { id := some "a", severity := some "Critical" }] :=
  ⟨(newDetection_prepends _ _).1,
    (newDetection_prepends _ _).2.2.2.1.trans (by decide),
    (newDetection_prepends _ _).2.2.2.1.trans (by decide)⟩

/-- C4: after `loadPlace(p)` with a non-empty `p` whose fetch yields `R` (empty
on each handled failure), the dataset and the filtered view are `R`, the current
place is `p`, the four criteria are empty and one request for `p` was issued;
after a second load the dataset and the filtered view are the second answer, so
every incident that remains is one of the second answer. -/
theorem loadPlace_replaces (p : String) (a : Response) (w : World) (hp : p ≠ "") :
    (fetchIncidentsForPlace p a w).1 = fetched a ∧
    (fetched .unreachable = [] ∧ (∀ n, fetched (.notOk n) = []) ∧ fetched .invalidShape = []) ∧
    (loadPlace p a w).INCIDENTS = fetched a ∧
    (loadPlace p a w).FILTERED_INCIDENTS = fetched a ∧
    (loadPlace p a w).CURRENT_PLACE_ID = some p ∧
    (loadPlace p a w).controls = { issue := "", severity := "", status := "", zone := "" } ∧
    AllEmpty (getFilters (loadPlace p a w)) ∧
    (loadPlace p a w).requests = w.requests ++ [p] ∧
    (∀ p2 a2, p2 ≠ "" →
      (loadPlace p2 a2 (loadPlace p a w)).INCIDENTS = fetched a2 ∧
      (loadPlace p2 a2 (loadPlace p a w)).FILTERED_INCIDENTS = fetched a2 ∧
      AllEmpty (getFilters (loadPlace p2 a2 (loadPlace p a w))) ∧
      (∀ x, x ∈ (loadPlace p2 a2 (loadPlace p a w)).INCIDENTS ∨
          x ∈ (loadPlace p2 a2 (loadPlace p a w)).FILTERED_INCIDENTS → x ∈ fetched a2)) := by
  have key : ∀ (q : String) (b : Response) (v : World), q ≠ "" →
      AllEmpty (getFilters (loadPlace q b v)) := by
    intro q b v hq
    unfold getFilters
    rw [(loadPlace_fields q b v hq).2.2.2.1]
    exact ⟨Or.inr rfl, Or.inr rfl, Or.inr rfl, Or.inr rfl⟩
  obtain ⟨h1, h2, h3, h4, _, h6⟩ := loadPlace_fields p a w hp
  refine ⟨fetch_returns p a w, ⟨rfl, fun _ => rfl, rfl⟩, h1, h2, h3, h4, key p a w hp, h6, ?_⟩
  intro p2 a2 hp2
  obtain ⟨g1, g2, _⟩ := loadPlace_fields p2 a2 (loadPlace p a w) hp2
  refine ⟨g1, g2, key p2 a2 _ hp2, ?_⟩
  intro x hx
  rw [g1, g2] at hx
  exact hx.elim id id

/-- C4, at an input: from a state that shows two incidents of a first place under
a Critical filter, loading the place `P2` whose answer is a bad status. -/
theorem loadPlace_replaces_witness :
    "P2" ≠ "" ∧
    (loadPlace "P2" (.notOk 500)
        { INCIDENTS := [{ id := some "a" }, { id := some "b" }]
          FILTERED_INCIDENTS := [{ id := some "a" }]
          CURRENT_PLACE_ID := some "P1"
          controls := { severity := "Critical" } }).INCIDENTS = [] ∧
    (loadPlace "P2" (.notOk 500)
        { INCIDENTS := [{ id := some "a" }, { id := some "b" }]
          FILTERED_INCIDENTS := [{ id := some "a" }]
          CURRENT_PLACE_ID := some "P1"
          controls := { severity := "Critical" } }).controls = {} :=
  ⟨by decide,
    (loadPlace_replaces "P2" (.notOk 500) _ (by decide)).2.2.1,
    (loadPlace_replaces "P2" (.notOk 500) _ (by decide)).2.2.2.2.2.1⟩

/-- C10: `loadPlace` with the empty identifier issues no request and changes
nothing but the status banner, which shows the validation message with the error
border. -/
theorem loadPlace_empty (a : Response) (w : World) :
    loadPlace "" a w =
      { w with
        statusText := "Enter a valid place ID or name to load scan data."
        bannerBorder := "rgba(248, 113, 113, 0.7)" } ∧
    (loadPlace "" a w).requests = w.requests ∧
    (loadPlace "" a w).INCIDENTS = w.INCIDENTS ∧
    (loadPlace "" a w).FILTERED_INCIDENTS = w.FILTERED_INCIDENTS ∧
    (loadPlace "" a w).CURRENT_PLACE_ID = w.CURRENT_PLACE_ID ∧
    (loadPlace "" a w).controls = w.controls ∧
    (loadPlace "" a w).rendered = w.rendered :=
  ⟨rfl, rfl, rfl, rfl, rfl, rfl, rfl⟩

/-! ## Metrics -/

theorem foldl_add_hours (f : Incident → ℚ) (l : List Incident) (acc : ℚ) :
    l.foldl (fun sum d => sum + f d) acc = acc + (l.map f).sum := by
  induction l generalizing acc with
  | nil => simp
  | cons x xs ih => rw [List.foldl_cons, ih, List.map_cons, List.sum_cons, add_assoc]

/-- The average computed by `updateMetrics` is the sum of `differenceInHours`
over the Resolved elements divided by their number, and zero when there is
none. -/
theorem updateMetrics_avg (parse : String → Option Int) (nowISO : String)
    (data : List Incident) :
    (updateMetrics parse nowISO data).avgHours =
      if (data.filter fun d => d.status == some "Resolved").length = 0 then 0
      else
        ((data.filter fun d => d.status == some "Resolved").map fun d =>
            differenceInHours parse (propArg d.detectedAt) (.str nowISO)).sum /
          (data.filter fun d => d.status == some "Resolved").length := by
  unfold updateMetrics
  simp only [foldl_add_hours, zero_add]
  by_cases h : (data.filter fun d => d.status == some "Resolved").length = 0
  · simp [h]
  · simp [h]

/-- When the clock reads `now` and every Resolved element carries the property
`detectedAt` with a parseable value, the average is the arithmetic mean over the
Resolved elements of `(now - detectedAt) / 3 600 000`; with no Resolved element
the value is zero and the placeholder is shown. -/
theorem updateMetrics_mean (parse : String → Option Int) (nowISO : String) (now : Int)
    (ms : Incident → Int) (data : List Incident) (hnow : parse nowISO = some now)
    (h : ∀ d ∈ data, d.status = some "Resolved" →
      ∃ s, d.detectedAt = some s ∧ parse s = some (ms d)) :
    ((data.filter fun d => d.status == some "Resolved").length ≠ 0 →
      (updateMetrics parse nowISO data).avgHours =
          ((data.filter fun d => d.status == some "Resolved").map fun d =>
              ((now - ms d : Int) : ℚ) / 3600000).sum /
            (data.filter fun d => d.status == some "Resolved").length ∧
        (updateMetrics parse nowISO data).ttc =
          .hours (updateMetrics parse nowISO data).avgHours) ∧
    ((data.filter fun d => d.status == some "Resolved").length = 0 →
      (updateMetrics parse nowISO data).avgHours = 0 ∧
        (updateMetrics parse nowISO data).ttc = .placeholder) := by
  constructor
  · intro hne
    constructor
    · rw [updateMetrics_avg, if_neg hne]
      congr 1
      congr 1
      apply List.map_congr_left
      intro d hd
      rw [List.mem_filter] at hd
      obtain ⟨s, hs, hp⟩ := h d hd.1 (by simpa using hd.2)
      simp only [differenceInHours, getTime, propArg, hs, hp, hnow]
      norm_num
    · unfold updateMetrics
      simp [hne]
  · intro h0
    constructor
    · rw [updateMetrics_avg, if_pos h0]
    · unfold updateMetrics
      simp [h0]

/-- C5: `updateMetrics` computes the total as the number of elements and
`criticalOpen` as the number of elements whose severity is Critical and whose
status is not Resolved; on the five incidents of the example `criticalOpen` is
two. -/
theorem updateMetrics_counts (parse : String → Option Int) (nowISO : String)
    (data : List Incident) :
    (updateMetrics parse nowISO data).total = data.length ∧
    (updateMetrics parse nowISO data).criticalOpen =
      data.countP (fun d => decide (d.severity = some "Critical" ∧ d.status ≠ some "Resolved")) ∧
    (updateMetrics parse nowISO metricsExample).criticalOpen = 2 ∧
    (updateMetrics parse nowISO metricsExample).total = 5 := by
  refine ⟨rfl, ?_, rfl, rfl⟩
  unfold updateMetrics
  simp only [List.countP_eq_length_filter]
  congr 2
  funext d
  by_cases h1 : d.severity = some "Critical" <;> by_cases h2 : d.status = some "Resolved" <;>
    simp [h1, h2]

/-- C6, at an input: a Resolved incident whose detection time is carried by the
alternate property `detected_at` only.  The table reads that property as the
detection time, `updateMetrics` reads `detectedAt` alone: whatever the clock and
the parser, the average is zero hours and that zero is what is displayed. -/
theorem updateMetrics_ignores_detected_at (parse : String → Option Int) (nowISO : String) :
    detectedArg { status := some "Resolved", detected_at := some "2024-01-01T00:00:00.000Z" } =
      .str "2024-01-01T00:00:00.000Z" ∧
    (updateMetrics parse nowISO
      [{ status := some "Resolved", detected_at := some "2024-01-01T00:00:00.000Z" }]).avgHours
        = 0 ∧
    (updateMetrics parse nowISO
      [{ status := some "Resolved", detected_at := some "2024-01-01T00:00:00.000Z" }]).ttc
        = .hours 0 := by
  refine ⟨by decide, ?_, ?_⟩
  · rw [updateMetrics_avg]
    simp [differenceInHours, getTime, propArg]
  · simp [updateMetrics, differenceInHours, getTime, propArg]

/-! ## Table -/

/-- The text columns of a row show the dash for a missing value: id, type,
severity, status and zone when the property is absent, source when neither
`drone` nor `source` is present. -/
theorem renderRow_text_placeholders (parse : String → Option Int) (d : Incident) :
    (d.id = none → (renderRow parse d).id = "—") ∧
    (d.type = none → (renderRow parse d).type = "—") ∧
    (d.severity = none → (renderRow parse d).severity = "—") ∧
    (d.status = none → (renderRow parse d).status = "—") ∧
    (d.zone = none → (renderRow parse d).zone = "—") ∧
    (d.drone = none → d.source = none → (renderRow parse d).drone = "—") := by
  refine ⟨?_, ?_, ?_, ?_, ?_, ?_⟩
  · intro h
    simp [renderRow, jsOrLit, h]
  · intro h
    simp [renderRow, jsOrLit, h]
  · intro h
    simp [renderRow, jsOrLit, h]
  · intro h
    simp [renderRow, jsOrLit, h]
  · intro h
    simp [renderRow, jsOrLit, h]
  · intro h1 h2
    simp [renderRow, jsOrLit, jsOr, truthy, h1, h2]

/-- The detection-time column of an incident that carries neither `detectedAt`
nor `detected_at`: the callback passes `null` to `formatDateTime`, which formats
the epoch. -/
theorem renderRow_detected_missing (parse : String → Option Int) (d : Incident)
    (h1 : d.detectedAt = none) (h2 : d.detected_at = none) :
    (renderRow parse d).detected = .formatted 0 := by
  simp [renderRow, detectedArg, formatDateTime, getTime, jsOr, truthy, h1, h2]

/-- C9, at an input: for the incident that carries only an id, the row shows the
dash in the columns type, severity, status, zone and source, and in the
detection-time column the formatted date of millisecond zero, not the dash. -/
theorem renderRow_missing_time_shows_epoch (parse : String → Option Int) :
    (renderRow parse { id := some "INC-1" }).id = "INC-1" ∧
    (renderRow parse { id := some "INC-1" }).type = "—" ∧
    (renderRow parse { id := some "INC-1" }).severity = "—" ∧
    (renderRow parse { id := some "INC-1" }).status = "—" ∧
    (renderRow parse { id := some "INC-1" }).zone = "—" ∧
    (renderRow parse { id := some "INC-1" }).drone = "—" ∧
    (renderRow parse { id := some "INC-1" }).detected = .formatted 0 ∧
    (renderRow parse { id := some "INC-1" }).detected ≠ .placeholder ∧
    formatDateTime parse .undefined = .placeholder := by
  refine ⟨rfl, rfl, rfl, rfl, rfl, rfl, rfl, ?_, rfl⟩
  intro h
  cases h

/-! ## Counters of numbers -/

theorem tallyAt_tally (c : List (String × Nat)) (k k' : String) :
    tallyAt (tally c k) k' =
      if k = k' then some ((tallyAt c k).getD 0 + 1) else tallyAt c k' := by
  induction c with
  | nil =>
    by_cases h : k = k' <;> simp [tally, tallyAt, h]
  | cons e rest ih =>
    obtain ⟨a, v⟩ := e
    by_cases h1 : a = k
    · subst h1
      by_cases h2 : a = k' <;> simp [tally, tallyAt, h2]
    · by_cases h2 : k = k'
      · subst h2
        simp [tally, tallyAt, h1, ih]
      · by_cases h3 : a = k'
        · subst h3
          simp [tally, tallyAt, h1, h2]
        · simp [tally, tallyAt, h1, h2, h3, ih]

theorem tallyAt_foldl_tally (ks : List String) (c : List (String × Nat)) (k : String) :
    tallyAt (ks.foldl tally c) k =
      match tallyAt c k with
      | some v => some (v + ks.count k)
      | none => if k ∈ ks then some (ks.count k) else none := by
  induction ks generalizing c with
  | nil => cases h : tallyAt c k <;> simp [h]
  | cons a ks ih =>
    rw [List.foldl_cons, ih, tallyAt_tally]
    by_cases h : a = k
    · subst h
      cases hc : tallyAt c a <;> simp [Nat.add_comm, Nat.add_left_comm]
    · have h' : k ≠ a := fun e => h e.symm
      cases hc : tallyAt c k <;> simp [h, h', List.count_cons]

theorem keys_tally (c : List (String × Nat)) (k : String) :
    (tally c k).map Prod.fst = if k ∈ c.map Prod.fst then c.map Prod.fst
      else c.map Prod.fst ++ [k] := by
  induction c with
  | nil => simp [tally]
  | cons e rest ih =>
    obtain ⟨a, v⟩ := e
    by_cases h1 : a = k
    · subst h1
      simp [tally]
    · have h' : k ≠ a := fun e => h1 e.symm
      simp only [tally, if_neg h1, List.map_cons, ih, List.mem_cons, h', false_or]
      split <;> simp

theorem nodup_keys_tally (c : List (String × Nat)) (k : String)
    (h : (c.map Prod.fst).Nodup) : ((tally c k).map Prod.fst).Nodup := by
  rw [keys_tally]
  split
  · exact h
  · rename_i hk
    rw [List.nodup_append]
    refine ⟨h, List.nodup_singleton k, ?_⟩
    intro x hx hx'
    rw [List.mem_singleton] at hx'
    subst hx'
    exact hk hx

theorem nodup_keys_foldl_tally (ks : List String) (c : List (String × Nat))
    (h : (c.map Prod.fst).Nodup) : ((ks.foldl tally c).map Prod.fst).Nodup := by
  induction ks generalizing c with
  | nil => exact h
  | cons a ks ih => exact ih _ (nodup_keys_tally c a h)

theorem mem_iff_tallyAt (c : List (String × Nat)) (h : (c.map Prod.fst).Nodup)
    (k : String) (v : Nat) : (k, v) ∈ c ↔ tallyAt c k = some v := by
  induction c with
  | nil => simp [tallyAt]
  | cons e rest ih =>
    obtain ⟨a, u⟩ := e
    rw [List.map_cons, List.nodup_cons] at h
    by_cases h1 : a = k
    · subst h1
      have hn : (a, v) ∉ rest := fun hm => h.1 (List.mem_map.2 ⟨(a, v), hm, rfl⟩)
      simp only [tallyAt, if_true, List.mem_cons, Prod.mk.injEq, true_and, hn, or_false,
        Option.some.injEq]
      exact eq_comm
    · have h' : k ≠ a := fun e => h1 e.symm
      simp [tallyAt, h1, h', ih h.2]

theorem sum_values_tally (c : List (String × Nat)) (k : String) :
    ((tally c k).map Prod.snd).sum = (c.map Prod.snd).sum + 1 := by
  induction c with
  | nil => simp [tally]
  | cons e rest ih =>
    obtain ⟨a, v⟩ := e
    by_cases h1 : a = k
    · simp [tally, h1]
      omega
    · simp [tally, h1, ih]
      omega

theorem sum_values_foldl_tally (ks : List String) (c : List (String × Nat)) :
    ((ks.foldl tally c).map Prod.snd).sum = (c.map Prod.snd).sum + ks.length := by
  induction ks generalizing c with
  | nil => simp
  | cons a ks ih =>
    rw [List.foldl_cons, ih, sum_values_tally, List.length_cons]
    omega

/-! ## Counter objects -/

/-- Enumeration order of an object: the array-index keys come first, in numeric
order, then the other keys as created; a numeral with a leading zero is not an
array index. -/
theorem objectEntries_order_example :
    objectEntries [("b", 1), ("10", 2), ("a", 3), ("9", 4), ("07", 5)] =
      [("9", 4), ("10", 2), ("b", 1), ("a", 3), ("07", 5)] := by
  decide

theorem objectEntries_perm {β : Type} (o : List (String × β)) :
    List.Perm (objectEntries o) o := by
  unfold objectEntries
  refine List.Perm.trans (List.Perm.append_right _ (List.perm_insertionSort _ _)) ?_
  exact List.filter_append_perm _ o

theorem objectEntries_plain (c : List (String × Nat)) :
    objectEntries (plain c) = plain (objectEntries c) := by
  unfold objectEntries plain
  rw [List.map_append, List.filter_map, List.filter_map]
  congr 1
  exact (List.map_insertionSort
    (fun a b : String × Nat => digitsValue a.1.data ≤ digitsValue b.1.data)
    (fun a b : String × CountVal => digitsValue a.1.data ≤ digitsValue b.1.data)
    (fun e => (e.1, CountVal.num e.2)) _ fun _ _ _ _ => Iff.rfl).symm

theorem getOwn_plain (c : List (String × Nat)) (k : String) :
    getOwn (plain c) k = (tallyAt c k).map CountVal.num := by
  induction c with
  | nil => rfl
  | cons e rest ih =>
    obtain ⟨a, v⟩ := e
    by_cases h : a = k
    · simp [plain, getOwn, tallyAt, h]
    · simpa [plain, getOwn, tallyAt, h] using ih

theorem readCount_plain (c : List (String × Nat)) (k : String)
    (hk : k ∉ objectPrototypeMembers) :
    readCount (plain c) k =
      match tallyAt c k with
      | some v => .value (.num v)
      | none => .undefined := by
  have h1 : k ≠ "__proto__" := fun e => hk (e ▸ List.mem_cons_self _ _)
  have h2 : k ∉ inheritedFunctions := fun e => hk (List.mem_cons_of_mem _ e)
  unfold readCount
  rw [if_neg h1, getOwn_plain]
  cases tallyAt c k <;> simp [h2]

theorem setOwn_plain (c : List (String × Nat)) (k : String) :
    setOwn (plain c) k (.num ((tallyAt c k).getD 0 + 1)) = plain (tally c k) := by
  induction c with
  | nil => rfl
  | cons e rest ih =>
    obtain ⟨a, v⟩ := e
    by_cases h : a = k
    · simp [plain, setOwn, tally, tallyAt, h]
    · have ih' := ih
      simp only [plain] at ih'
      simp [plain, setOwn, tally, tallyAt, h, ih']

theorem bump_plain (c : List (String × Nat)) (k : String) (hk : k ∉ objectPrototypeMembers) :
    bump (plain c) k = plain (tally c k) := by
  have h1 : k ≠ "__proto__" := fun e => hk (e ▸ List.mem_cons_self _ _)
  unfold bump
  rw [if_neg h1, readCount_plain c k hk, ← setOwn_plain]
  cases tallyAt c k <;> rfl

theorem foldl_bump_plain (ks : List String) (c : List (String × Nat))
    (hk : ∀ k ∈ ks, k ∉ objectPrototypeMembers) :
    ks.foldl bump (plain c) = plain (ks.foldl tally c) := by
  induction ks generalizing c with
  | nil => rfl
  | cons a ks ih =>
    rw [List.foldl_cons, List.foldl_cons, bump_plain c a (hk a (List.mem_cons_self a ks))]
    exact ih _ fun k h => hk k (List.mem_cons_of_mem a h)

theorem foldl_addVal_num (l : List Nat) (acc : Nat) :
    (l.map CountVal.num).foldl (fun s v => addVal s v) (.num acc) = .num (acc + l.sum) := by
  induction l generalizing acc with
  | nil => simp
  | cons x xs ih =>
    rw [List.map_cons, List.foldl_cons]
    show (xs.map CountVal.num).foldl (fun s v => addVal s v) (.num (acc + x)) = _
    rw [ih, List.sum_cons, Nat.add_assoc]

theorem total_plain (c : List (String × Nat)) :
    (objectValues (plain c)).foldl (fun s v => addVal s v) (.num 0) =
      .num (c.map Prod.snd).sum := by
  have e : objectValues (plain c) = ((objectEntries c).map Prod.snd).map CountVal.num := by
    unfold objectValues
    rw [objectEntries_plain]
    simp [plain]
  rw [e, foldl_addVal_num, Nat.zero_add]
  exact congrArg CountVal.num ((objectEntries_perm c).map Prod.snd).sum_eq

theorem sumNumbers_some (l : List ℚ) : sumNumbers (l.map some) = some l.sum := by
  induction l with
  | nil => rfl
  | cons x xs ih =>
    unfold sumNumbers at ih ⊢
    rw [List.map_cons, List.foldr_cons, ih]
    rfl

/-! ## Severity chart -/

theorem level_not_member (l : String) (hl : l ∈ levels) : l ∉ objectPrototypeMembers := by
  simp only [levels, List.mem_cons, List.mem_singleton, List.not_mem_nil, or_false] at hl
  rcases hl with h | h | h | h <;> subst h <;> decide

theorem count_propertyKey_level (data : List Incident) (l : String) (hl : l ∈ levels) :
    (data.map fun d => propertyKey d.severity).count l = severityCount data l := by
  have hu : l ≠ "undefined" := by
    intro h
    subst h
    revert hl
    decide
  unfold severityCount
  rw [List.count, List.countP_map]
  apply List.countP_congr
  intro d _
  cases hs : d.severity with
  | none => simp [propertyKey, hs, hu.symm]
  | some s => simp [propertyKey, hs]

theorem tallyAt_initial (l : String) (hl : l ∈ levels) :
    tallyAt (levels.map fun l => (l, 0)) l = some 0 := by
  simp only [levels, List.mem_cons, List.mem_singleton, List.not_mem_nil, or_false] at hl
  rcases hl with h | h | h | h <;> subst h <;> decide

theorem severityCounts_eq (data : List Incident)
    (hk : ∀ d ∈ data, propertyKey d.severity ∉ objectPrototypeMembers) :
    severityCounts data =
      plain ((data.map fun d => propertyKey d.severity).foldl tally
        (levels.map fun l => (l, 0))) := by
  unfold severityCounts
  rw [← foldl_bump_plain, List.foldl_map]
  · rfl
  · intro k hmem
    obtain ⟨d, hd, rfl⟩ := List.mem_map.1 hmem
    exact hk d hd

theorem readCount_severityCounts (data : List Incident)
    (hk : ∀ d ∈ data, propertyKey d.severity ∉ objectPrototypeMembers)
    (l : String) (hl : l ∈ levels) :
    readCount (severityCounts data) l = .value (.num (severityCount data l)) := by
  rw [severityCounts_eq data hk, readCount_plain _ _ (level_not_member l hl),
    tallyAt_foldl_tally, tallyAt_initial l hl, count_propertyKey_level data l hl]
  simp

theorem total_severityCounts (data : List Incident)
    (hk : ∀ d ∈ data, propertyKey d.severity ∉ objectPrototypeMembers) :
    (objectValues (severityCounts data)).foldl (fun s v => addVal s v) (.num 0) =
      .num data.length := by
  rw [severityCounts_eq data hk, total_plain, sum_values_foldl_tally]
  simp [levels]

theorem severitySegments_eq (counts : List (String × CountVal)) (n : Nat) (hn : n ≠ 0)
    (f : String → Nat) (h : ∀ l ∈ levels, readCount counts l = .value (.num (f l))) :
    severitySegments counts (.num n) =
      (levels.filter fun l => decide (f l ≠ 0)).map fun l =>
        { className := "severity-segment " ++ colors l
          width := some ((f l : ℚ) / n * 100) } := by
  unfold severitySegments
  generalize levels = ls at h
  induction ls with
  | nil => rfl
  | cons l ls ih =>
    have hl := h l (List.mem_cons_self l ls)
    have ih' := ih fun x hx => h x (List.mem_cons_of_mem l hx)
    rw [List.filterMap_cons, ih', List.filter_cons]
    by_cases h0 : f l = 0
    · simp [hl, Read.falsy, h0]
    · simp [hl, Read.falsy, h0, Read.toNumber, CountVal.toNumber, orOne, hn, percent]

theorem buildIncidentsBySeverity_eq (data : List Incident) (h : data ≠ [])
    (hk : ∀ d ∈ data, propertyKey d.severity ∉ objectPrototypeMembers) :
    buildIncidentsBySeverity data =
      .row "Share of incidents"
        ((levels.filter fun l => decide (severityCount data l ≠ 0)).map fun l =>
          { className := "severity-segment " ++ colors l
            width := some ((severityCount data l : ℚ) / data.length * 100) })
        (.num data.length) := by
  have hlen : data.length ≠ 0 := fun e => h (List.length_eq_zero.1 e)
  unfold buildIncidentsBySeverity
  rw [if_neg hlen]
  simp only [total_severityCounts data hk]
  rw [severitySegments_eq _ _ hlen (severityCount data) (readCount_severityCounts data hk)]

theorem sum_filter_widths (ls : List String) (f : String → Nat) (n : ℚ) :
    sumNumbers (((ls.filter fun l => decide (f l ≠ 0)).map fun l =>
        ({ className := "severity-segment " ++ colors l
           width := some ((f l : ℚ) / n * 100) } : Segment)).map Segment.width) =
      some (((ls.map f).sum : ℚ) / n * 100) := by
  have e : ((ls.filter fun l => decide (f l ≠ 0)).map fun l =>
        ({ className := "severity-segment " ++ colors l
           width := some ((f l : ℚ) / n * 100) } : Segment)).map Segment.width =
      ((ls.filter fun l => decide (f l ≠ 0)).map fun l => (f l : ℚ) / n * 100).map some := by
    simp [List.map_map, Function.comp_def]
  rw [e, sumNumbers_some]
  congr 1
  clear e
  induction ls with
  | nil => simp
  | cons l ls ih =>
    by_cases h0 : f l = 0
    · rw [List.filter_cons]
      simp only [h0, ne_eq, not_true_eq_false, decide_False, Bool.false_eq_true, if_false,
        List.map_cons, List.sum_cons, Nat.cast_add, Nat.cast_zero, zero_add]
      exact_mod_cast ih
    · rw [List.filter_cons]
      simp only [h0, ne_eq, not_false_eq_true, decide_True, if_true, List.map_cons,
        List.sum_cons, Nat.cast_add]
      rw [ih]
      push_cast
      ring

theorem sum_level_counts (data : List Incident) :
    (levels.map (severityCount data)).sum = levelled data := by
  induction data with
  | nil => simp [levels, severityCount, levelled]
  | cons d ds ih =>
    have e : ∀ l, severityCount (d :: ds) l =
        severityCount ds l + if d.severity = some l then 1 else 0 := by
      intro l
      simp [severityCount, List.countP_cons]
    have e' : levelled (d :: ds) =
        levelled ds + if (∃ l ∈ levels, d.severity = some l) then 1 else 0 := by
      simp [levelled, List.countP_cons]
    rw [e', ← ih]
    simp only [levels, List.map_cons, List.map_nil, List.sum_cons, List.sum_nil, e]
    cases hs : d.severity with
    | none => simp
    | some s =>
      by_cases h1 : s = "Critical"
      · subst h1
        simp
        omega
      · by_cases h2 : s = "High"
        · subst h2
          simp
          omega
        · by_cases h3 : s = "Medium"
          · subst h3
            simp
            omega
          · by_cases h4 : s = "Low"
            · subst h4
              simp
              omega
            · simp [h1, h2, h3, h4]

theorem widthSum_buildIncidentsBySeverity (data : List Incident) (h : data ≠ [])
    (hk : ∀ d ∈ data, propertyKey d.severity ∉ objectPrototypeMembers) :
    (buildIncidentsBySeverity data).widthSum =
      some ((levelled data : ℚ) / data.length * 100) := by
  rw [buildIncidentsBySeverity_eq data h hk, SeverityChart.widthSum, sum_filter_widths,
    ← sum_level_counts]

theorem levels_keys_allowed (data : List Incident)
    (hall : ∀ d ∈ data, ∃ l ∈ levels, d.severity = some l) :
    ∀ d ∈ data, propertyKey d.severity ∉ objectPrototypeMembers := by
  intro d hd
  obtain ⟨l, hl, hs⟩ := hall d hd
  rw [hs]
  exact level_not_member l hl

/-- The severity chart on keys that name members of `Object.prototype`: an
incident of severity `__proto__` is not counted at all, so next to one Critical
incident the Critical segment is 100 percent of a total of one; an incident of
severity `constructor` turns the total into a string, so the width of the
Critical segment is not a number. -/
theorem severityChart_prototype_keys :
    buildIncidentsBySeverity [{ severity := some "Critical" }, { severity := some "__proto__" }] =
      .row "Share of incidents"
        [{ className := "severity-segment segment-critical", width := some 100 }] (.num 1) ∧
    buildIncidentsBySeverity [{ severity := some "Critical" }, { severity := some "constructor" }] =
      .row "Share of incidents"
        [{ className := "severity-segment segment-critical", width := none }] .text := by
  have c1 : severityCounts [{ severity := some "Critical" }, { severity := some "__proto__" }] =
      [("Critical", .num 1), ("High", .num 0), ("Medium", .num 0), ("Low", .num 0)] := by
    decide
  have c2 : severityCounts [{ severity := some "Critical" }, { severity := some "constructor" }] =
      [("Critical", .num 1), ("High", .num 0), ("Medium", .num 0), ("Low", .num 0),
        ("constructor", .text)] := by
    decide
  have t1 : (objectValues [("Critical", CountVal.num 1), ("High", .num 0), ("Medium", .num 0),
      ("Low", .num 0)]).foldl (fun s v => addVal s v) (.num 0) = .num 1 := by
    decide
  have t2 : (objectValues [("Critical", CountVal.num 1), ("High", .num 0), ("Medium", .num 0),
      ("Low", .num 0), ("constructor", .text)]).foldl (fun s v => addVal s v) (.num 0) =
        .text := by
    decide
  constructor
  · simp only [buildIncidentsBySeverity, c1, t1]
    simp [severitySegments, levels, readCount, getOwn, Read.falsy, Read.toNumber,
      CountVal.toNumber, orOne, percent, colors]
  · simp only [buildIncidentsBySeverity, c2, t2]
    simp [severitySegments, levels, readCount, getOwn, Read.falsy, Read.toNumber,
      CountVal.toNumber, orOne, percent, colors]

/-- C8, as amended: for a non-empty dataset none of whose severities names a
member of `Object.prototype`, the chart row holds, in the order Critical, High,
Medium, Low, one segment per level whose count is not zero, of width count over
the number of incidents times 100; the widths sum to the share of incidents
whose severity is one of the four levels, which is exactly 100 when every
incident has such a severity; for four Critical and six High the segments are
40 and 60. -/
theorem severityChart_segments (data : List Incident) (h : data ≠ [])
    (hk : ∀ d ∈ data, propertyKey d.severity ∉ objectPrototypeMembers) :
    buildIncidentsBySeverity data =
      .row "Share of incidents"
        ((levels.filter fun l => decide (severityCount data l ≠ 0)).map fun l =>
          { className := "severity-segment " ++ colors l
            width := some ((severityCount data l : ℚ) / data.length * 100) })
        (.num data.length) ∧
    (buildIncidentsBySeverity data).widthSum =
      some ((levelled data : ℚ) / data.length * 100) ∧
    ((∀ d ∈ data, ∃ l ∈ levels, d.severity = some l) →
      (buildIncidentsBySeverity data).widthSum = some 100) ∧
    buildIncidentsBySeverity severityExample =
      .row "Share of incidents"
        [{ className := "severity-segment segment-critical", width := some 40 },
          { className := "severity-segment segment-high", width := some 60 }] (.num 10) := by
  refine ⟨buildIncidentsBySeverity_eq data h hk, widthSum_buildIncidentsBySeverity data h hk,
    ?_, ?_⟩
  · intro hall
    have hlen : (data.length : ℚ) ≠ 0 := by
      exact_mod_cast fun e => h (List.length_eq_zero.1 e)
    have hl : levelled data = data.length := by
      unfold levelled
      rw [List.countP_eq_length]
      intro d hd
      exact decide_eq_true (hall d hd)
    rw [widthSum_buildIncidentsBySeverity data h hk, hl]
    congr 1
    field_simp
  · rw [buildIncidentsBySeverity_eq severityExample (by decide) (by decide)]
    have c1 : severityCount severityExample "Critical" = 4 := by decide
    have c2 : severityCount severityExample "High" = 6 := by decide
    have c3 : severityCount severityExample "Medium" = 0 := by decide
    have c4 : severityCount severityExample "Low" = 0 := by decide
    have c5 : severityExample.length = 10 := by decide
    simp only [levels, List.filter_cons, List.filter_nil, c1, c2, c3, c4, c5]
    simp [colors, c1, c2]
    norm_num

/-- C8, at an input: for two Critical, one High and one incident of severity
Extreme the segments are Critical at 50 and High at 25 of a total of four, and
the widths sum to 75. -/
theorem severityChart_segments_witness :
    mixedExample ≠ [] ∧
    (∀ d ∈ mixedExample, propertyKey d.severity ∉ objectPrototypeMembers) ∧
    buildIncidentsBySeverity mixedExample =
      .row "Share of incidents"
        [{ className := "severity-segment segment-critical", width := some 50 },
          { className := "severity-segment segment-high", width := some 25 }] (.num 4) ∧
    (buildIncidentsBySeverity mixedExample).widthSum = some 75 := by
  have c1 : severityCount mixedExample "Critical" = 2 := by decide
  have c2 : severityCount mixedExample "High" = 1 := by decide
  have c3 : severityCount mixedExample "Medium" = 0 := by decide
  have c4 : severityCount mixedExample "Low" = 0 := by decide
  have c5 : mixedExample.length = 4 := by decide
  have c6 : levelled mixedExample = 3 := by decide
  refine ⟨by decide, by decide, ?_, ?_⟩
  · rw [(severityChart_segments mixedExample (by decide) (by decide)).1]
    simp only [levels, List.filter_cons, List.filter_nil, c1, c2, c3, c4, c5]
    simp [colors, c1, c2]
    norm_num
  · rw [(severityChart_segments mixedExample (by decide) (by decide)).2.1, c5, c6]
    norm_num

/-- C8, as stated, fails: for the dataset of one Critical incident and one
incident without a severity the only segment is Critical at 50 percent, so the
widths of the emitted segments sum to 50, not 100; and for one Critical incident
and one of severity `constructor` the width of the Critical segment is not a
number, so neither is the sum. -/
theorem severity_widths_below_100 :
    ([{ severity := some "Critical" }, {}] : List Incident) ≠ [] ∧
    buildIncidentsBySeverity [{ severity := some "Critical" }, {}] =
      .row "Share of incidents"
        [{ className := "severity-segment segment-critical", width := some 50 }] (.num 2) ∧
    (buildIncidentsBySeverity [{ severity := some "Critical" }, {}]).widthSum = some 50 ∧
    (buildIncidentsBySeverity [{ severity := some "Critical" }, {}]).widthSum ≠ some 100 ∧
    buildIncidentsBySeverity [{ severity := some "Critical" }, { severity := some "constructor" }] =
      .row "Share of incidents"
        [{ className := "severity-segment segment-critical", width := none }] .text ∧
    (buildIncidentsBySeverity
      [{ severity := some "Critical" }, { severity := some "constructor" }]).widthSum = none := by
  have e : buildIncidentsBySeverity [{ severity := some "Critical" }, {}] =
      .row "Share of incidents"
        [{ className := "severity-segment segment-critical", width := some 50 }] (.num 2) := by
    rw [buildIncidentsBySeverity_eq _ (by decide) (by decide)]
    have c1 : severityCount [{ severity := some "Critical" }, {}] "Critical" = 1 := by decide
    have c2 : severityCount [{ severity := some "Critical" }, {}] "High" = 0 := by decide
    have c3 : severityCount [{ severity := some "Critical" }, {}] "Medium" = 0 := by decide
    have c4 : severityCount [{ severity := some "Critical" }, {}] "Low" = 0 := by decide
    simp only [levels, List.filter_cons, List.filter_nil, c1, c2, c3, c4]
    simp [colors, c1]
    norm_num
  refine ⟨by decide, e, ?_, ?_, severityChart_prototype_keys.2, ?_⟩
  · rw [e]
    simp [SeverityChart.widthSum, sumNumbers, addNumbers]
  · rw [e]
    simp [SeverityChart.widthSum, sumNumbers, addNumbers]
  · rw [severityChart_prototype_keys.2]
    rfl

/-! ## By-type chart -/

theorem typeCounts_eq (data : List Incident)
    (hk : ∀ d ∈ data, propertyKey d.type ∉ objectPrototypeMembers) :
    typeCounts data = plain ((data.map fun d => propertyKey d.type).foldl tally []) := by
  unfold typeCounts
  rw [← foldl_bump_plain, List.foldl_map]
  · rfl
  · intro k hmem
    obtain ⟨d, hd, rfl⟩ := List.mem_map.1 hmem
    exact hk d hd

theorem count_propertyKey_type (data : List Incident) (k : String) :
    (data.map fun d => propertyKey d.type).count k = typeCount data k := by
  unfold typeCount
  rw [List.count, List.countP_map]
  apply List.countP_congr
  intro d _
  simp

theorem typeEntries_plain (data : List Incident)
    (hk : ∀ d ∈ data, propertyKey d.type ∉ objectPrototypeMembers) :
    typeEntries data =
      plain (List.insertionSort (fun a b : String × Nat => b.2 ≤ a.2)
        (objectEntries ((data.map fun d => propertyKey d.type).foldl tally []))) := by
  unfold typeEntries
  rw [typeCounts_eq data hk, objectEntries_plain]
  unfold plain
  refine (List.map_insertionSort (fun a b : String × Nat => b.2 ≤ a.2)
    (fun a b : String × CountVal => staysBefore a b = true)
    (fun e => (e.1, CountVal.num e.2)) _ ?_).symm
  intro a _ b _
  simp [staysBefore]

/-- The entries of the by-type chart of a dataset none of whose types names a
member of `Object.prototype`: every value is a number; there is one entry per
key, an entry for exactly the keys under which some incident is filed, with the
number of those incidents, and the entries are in non-increasing order of
count. -/
theorem typeEntries_spec (data : List Incident)
    (hk : ∀ d ∈ data, propertyKey d.type ∉ objectPrototypeMembers) :
    ∃ es : List (String × Nat), typeEntries data = plain es ∧
      (es.map Prod.fst).Nodup ∧
      (∀ k v, (k, v) ∈ es ↔ v = typeCount data k ∧ v ≠ 0) ∧
      List.Pairwise (fun a b => b.2 ≤ a.2) es := by
  refine ⟨_, typeEntries_plain data hk, ?_, ?_, ?_⟩
  · have hnd : (((data.map fun d => propertyKey d.type).foldl tally []).map Prod.fst).Nodup :=
      nodup_keys_foldl_tally _ [] List.nodup_nil
    exact (((List.perm_insertionSort _ _).trans (objectEntries_perm _)).map
      Prod.fst).nodup_iff.2 hnd
  · have hnd : (((data.map fun d => propertyKey d.type).foldl tally []).map Prod.fst).Nodup :=
      nodup_keys_foldl_tally _ [] List.nodup_nil
    intro k v
    rw [((List.perm_insertionSort _ _).trans (objectEntries_perm _)).mem_iff,
      mem_iff_tallyAt _ hnd, tallyAt_foldl_tally, ← count_propertyKey_type]
    simp only [tallyAt]
    by_cases hmem : k ∈ data.map fun d => propertyKey d.type
    · have hpos := List.count_pos_iff.2 hmem
      rw [if_pos hmem]
      constructor
      · intro e
        have e' := Option.some.inj e
        omega
      · intro e
        rw [e.1]
    · have h0 := List.count_eq_zero.2 hmem
      rw [if_neg hmem]
      constructor
      · intro e
        cases e
      · intro e
        omega
  · haveI : IsTotal (String × Nat) (fun a b => b.2 ≤ a.2) := ⟨fun a b => Nat.le_total b.2 a.2⟩
    haveI : IsTrans (String × Nat) (fun a b => b.2 ≤ a.2) :=
      ⟨fun a b c hab hbc => Nat.le_trans hbc hab⟩
    exact List.sorted_insertionSort (fun a b : String × Nat => b.2 ≤ a.2) _

/-- The rows of the by-type chart of a non-empty dataset, entry by entry: the
label is the key, or Unknown for the empty key, and the value is the count. -/
theorem buildIncidentsByType_rows (data : List Incident) (h : data ≠ []) :
    ∃ rows, buildIncidentsByType data = .bars rows ∧
      rows.map BarRow.label =
        (typeEntries data).map (fun e => if e.1 = "" then "Unknown" else e.1) ∧
      rows.map BarRow.value = (typeEntries data).map Prod.snd := by
  have hlen : data.length ≠ 0 := fun e => h (List.length_eq_zero.1 e)
  unfold buildIncidentsByType
  rw [if_neg hlen]
  refine ⟨_, rfl, ?_, ?_⟩
  · rw [List.map_map]
    apply List.map_congr_left
    intro e _
    by_cases he : e.1 = "" <;> simp [jsOrLit, he]
  · rw [List.map_map]
    rfl

/-- C7, at an input: for the one incident that has no type the chart shows one
bar whose label is the text undefined, not Unknown; an incident whose type is
the empty string is labelled Unknown, and next to an incident of type Unknown it
gets a bar of its own with the same label. -/
theorem missing_type_labelled_undefined :
    buildIncidentsByType [{ severity := some "Low" }] =
      .bars [{ label := "undefined", width := some 100, value := .num 1 }] ∧
    buildIncidentsByType [{ type := some "" }] =
      .bars [{ label := "Unknown", width := some 100, value := .num 1 }] ∧
    buildIncidentsByType [{ type := some "" }, { type := some "Unknown" }] =
      .bars [{ label := "Unknown", width := some 100, value := .num 1 },
        { label := "Unknown", width := some 100, value := .num 1 }] := by
  have e1 : typeEntries [{ severity := some "Low" }] = [("undefined", .num 1)] := by decide
  have e2 : typeEntries [{ type := some "" }] = [("", .num 1)] := by decide
  have e3 : typeEntries [{ type := some "" }, { type := some "Unknown" }] =
      [("", .num 1), ("Unknown", .num 1)] := by decide
  refine ⟨?_, ?_, ?_⟩
  · simp [buildIncidentsByType, e1, jsOrLit, mathMax, percent, CountVal.toNumber]
  · simp [buildIncidentsByType, e2, jsOrLit, mathMax, percent, CountVal.toNumber]
  · simp [buildIncidentsByType, e3, jsOrLit, mathMax, percent, CountVal.toNumber]

/-- The by-type example: for types A, A, B the bars are A with 2 and B with 1,
and the empty dataset gives the empty-state text and no bar. -/
theorem buildIncidentsByType_example :
    buildIncidentsByType [{ type := some "A" }, { type := some "A" }, { type := some "B" }] =
      .bars [{ label := "A", width := some 100, value := .num 2 },
        { label := "B", width := some 50, value := .num 1 }] ∧
    buildIncidentsByType [] = .emptyPlaceholder "No incidents loaded for this place." := by
  have e1 : typeEntries [{ type := some "A" }, { type := some "A" }, { type := some "B" }] =
      [("A", .num 2), ("B", .num 1)] := by decide
  refine ⟨?_, rfl⟩
  simp [buildIncidentsByType, e1, jsOrLit, mathMax, percent, CountVal.toNumber]
  norm_num

/-- The by-type chart on a key that names a member of `Object.prototype`: the
count under `toString` is a string, the largest count is then not a number, and
no bar has a numeric width. -/
theorem typeChart_prototype_key :
    buildIncidentsByType [{ type := some "A" }, { type := some "toString" }] =
      .bars [{ label := "A", width := none, value := .num 1 },
        { label := "toString", width := none, value := .text }] := by
  have e1 : typeEntries [{ type := some "A" }, { type := some "toString" }] =
      [("A", .num 1), ("toString", .text)] := by decide
  simp [buildIncidentsByType, e1, jsOrLit, mathMax, percent, CountVal.toNumber]

end Dashboard
